import Mathlib

/-!
Verification of the `patterns` classification engine.

A shallow embedding of the pattern classification and aggregation engine of
the `collective_profiler` repository (Go package `patterns` together with the
aggregation entry point `AnalyzeSubCommsResults` of package `profiler`).

Modelling conventions:
* A Go `map[int]int` is modelled as an association list `GoMap`; the order of
  the entries models Go's (unspecified) map iteration order, and two lists
  represent the same Go map when they are permutations of each other with
  unique keys.  `reflect.DeepEqual` on maps is key/value equality, embedded
  by `deepEqualMaps` (mutual containment of entries via key lookup).
* Go heap pointers `*CallData` are modelled as indices into an `arena` list:
  `Data.arena` holds every allocated `CallData` record in allocation order,
  and the slices `AllPatterns`, `OneToN`, `NToN`, `NToOne`, `Empty` hold
  arena indices.  Pointer equality is index equality, and in-place mutation
  through a pointer is `List.set` at that index.
* File output is modelled as the list of written lines (each line without its
  trailing newline; an empty string models a line holding only `"\n"`), and
  `bufio.Reader.ReadString('\n')` is taking the head of the remaining lines.
* The `counts` and `notation` packages are not part of the sources; the few
  pieces the engine needs are modelled from the spec and marked as such.
-/

namespace CollectiveProfiler

/-- A Go `map[int]int` (peerCount keyed signature map), as an association list
whose order stands for Go's map iteration order. -/
abbrev GoMap := List (Int × Int)

/-- Key lookup in a `GoMap` (first binding wins, as in a real map where keys
are unique). -/
def lookupVal : GoMap → Int → Option Int
  | [], _ => none
  | (k, v) :: rest, key => if k = key then some v else lookupVal rest key

/-- Go `reflect.DeepEqual` on two maps: the two maps hold exactly the same
key/value pairs (mutual containment through lookup). -/
def deepEqualMaps (p1 p2 : GoMap) : Bool :=
  p1.all (fun kv => lookupVal p2 kv.1 == some kv.2) &&
    p2.all (fun kv => lookupVal p1 kv.1 == some kv.2)

/-- Function `CompareCallPatterns` (src/unnamed/part_002, lines 53-59): length check,
then `reflect.DeepEqual`. -/
def CompareCallPatterns (p1 p2 : GoMap) : Bool :=
  if p1.length != p2.length then false
  else deepEqualMaps p1 p2

/-- Type `CallData` (src/unnamed/part_002, lines 28-33): one pattern bucket. -/
structure CallData where
  Send : GoMap
  Recv : GoMap
  Count : Nat
  Calls : List Nat
deriving DecidableEq, Repr

instance : Inhabited CallData := ⟨⟨[], [], 0, []⟩⟩

/-- Type `Data` (src/unnamed/part_002, lines 36-51).  `arena` is the modelled Go
heap: every `*CallData` is an index into `arena`; the five Go slices of
pointers become five lists of arena indices. -/
structure Data where
  arena : List CallData
  AllPatterns : List Nat
  OneToN : List Nat
  NToN : List Nat
  NToOne : List Nat
  Empty : List Nat
deriving DecidableEq, Repr

/-- The zero value of `Data` (`var patterns Data` in Go). -/
def emptyData : Data := ⟨[], [], [], [], [], []⟩

instance : Inhabited Data := ⟨emptyData⟩

/-- Dereference a bucket pointer (arena index). -/
def Data.bucket (d : Data) (i : Nat) : CallData :=
  d.arena.getD i default

/-- The loop-body condition of `Data.addPattern` (src/unnamed/part_002,
line 273): a stored bucket matches the incoming signature pair. -/
def matchesBucket (cd : CallData) (s r : GoMap) : Bool :=
  CompareCallPatterns cd.Send s && CompareCallPatterns cd.Recv r

/-- The linear scan of `d.AllPatterns` in `Data.addPattern` (src/unnamed/
part_002, lines 272-281): first bucket whose stored pair deep-equals the
incoming pair, if any. -/
def findMatch (arena : List CallData) : List Nat → GoMap → GoMap → Option Nat
  | [], _, _ => none
  | i :: rest, s, r =>
      if matchesBucket (arena.getD i default) s r then some i
      else findMatch arena rest s r

/-- The three topology views a new bucket can be appended to. -/
inductive TopoView where
  | oneToN
  | nToN
  | nToOne
deriving DecidableEq, Repr

/-- The classifier body of `Data.addPattern` (src/unnamed/part_002, lines
295-313): one `(sendTo, n)` entry of the send signature is tested with the
`continue`-chained conditions `sendTo > n*100`, `sendTo == n`,
`sendTo*100 < n`; at most one view receives the bucket per entry, and an
entry matching no rule is classified nowhere. -/
def classifySendEntry (sendTo n : Int) : Option TopoView :=
  if sendTo > n * 100 then some .oneToN
  else if sendTo = n then some .nToN
  else if sendTo * 100 < n then some .nToOne
  else none

/-- Append bucket index `i` to one topology view. -/
def appendView (d : Data) (v : TopoView) (i : Nat) : Data :=
  match v with
  | .oneToN => { d with OneToN := d.OneToN ++ [i] }
  | .nToN => { d with NToN := d.NToN ++ [i] }
  | .nToOne => { d with NToOne := d.NToOne ++ [i] }

/-- The `for sendTo, n := range sendPatterns` classification loop of
`Data.addPattern` (src/unnamed/part_002, lines 295-313), iterating the map
entries in the order of the modelled map. -/
def classifyPattern (sendPatterns : GoMap) (i : Nat) (d : Data) : Data :=
  sendPatterns.foldl
    (fun acc kv =>
      match classifySendEntry kv.1 kv.2 with
      | some v => appendView acc v i
      | none => acc)
    d

/-- The merge effect of `Data.addPattern` on a matched bucket
(src/unnamed/part_002, lines 276-277): `x.Count++; x.Calls = append(...)`. -/
def bumpCD (cd : CallData) (callNum : Nat) : CallData :=
  { cd with Count := cd.Count + 1, Calls := cd.Calls ++ [callNum] }

/-- Function `Data.addPattern` (src/unnamed/part_002, lines 271-316): merge into the
first deep-equal bucket (incrementing its count and appending the call
number), or allocate a new bucket, append it to `AllPatterns` and run the
topology classifier on its send signature. -/
def Data.addPattern (d : Data) (callNum : Nat) (sendPatterns recvPatterns : GoMap) : Data :=
  match findMatch d.arena d.AllPatterns sendPatterns recvPatterns with
  | some i =>
      { d with arena := d.arena.set i (bumpCD (d.arena.getD i default) callNum) }
  | none =>
      let newIdx := d.arena.length
      let new_cp : CallData := ⟨sendPatterns, recvPatterns, 1, [callNum]⟩
      classifyPattern sendPatterns newIdx
        { d with arena := d.arena ++ [new_cp],
                 AllPatterns := d.AllPatterns ++ [newIdx] }

/-- Modelled from the spec: the per-call output of the missing
`counts.ParseFiles` (the shape-signature step of §4.1 plus the non-zero count
totals); `patterns.ParseFiles` consumes exactly these four fields. -/
structure CallCountsData where
  SendPatterns : GoMap
  RecvPatterns : GoMap
  TotalSendNonZeroCounts : Nat
  TotalRecvNonZeroCounts : Nat

/-- The barrier-like-call test of `ParseFiles` (src/unnamed/part_002, line
499): `TotalSendNonZeroCounts == 0 && TotalRecvNonZeroCounts == 0`. -/
def isBarrier (cc : CallCountsData) : Bool :=
  cc.TotalSendNonZeroCounts == 0 && cc.TotalRecvNonZeroCounts == 0

/-- The `Empty`-tracking allocation of `ParseFiles` (src/unnamed/part_002,
lines 500-503): a fresh `CallData` with count 1, only call `i`, and nil
signature maps, whose pointer is appended to `Empty` (and never to any other
list). -/
def appendEmptyRecord (d1 : Data) (i : Nat) : Data :=
  { d1 with arena := d1.arena ++ [⟨[], [], 1, [i]⟩],
            Empty := d1.Empty ++ [d1.arena.length] }

/-- One iteration of the loop of `ParseFiles` (src/unnamed/part_002, lines
485-508): feed the call's signatures into `addPattern`, then, when the call
exchanged no data at all, allocate a fresh `CallData` and append its pointer
to `Empty`. -/
def parseFilesStep (cc : CallCountsData) (i : Nat) (d : Data) : Data :=
  let d1 := d.addPattern i cc.SendPatterns cc.RecvPatterns
  if isBarrier cc then appendEmptyRecord d1 i
  else d1

/-- Function `ParseFiles` (src/unnamed/part_002, lines 480-511), success path: the
per-call data provider (the missing `counts.ParseFiles`) is abstracted as the
oracle `counts`, and calls `0 .. numCalls-1` are processed in order. -/
def ParseFiles (counts : Nat → CallCountsData) (numCalls : Nat) : Data :=
  (List.range numCalls).foldl (fun d i => parseFilesStep (counts i) i d) emptyData

/-- The dereferenced bucket list of a collection. -/
def allPatternsList (d : Data) : List CallData :=
  d.AllPatterns.map (fun i => d.arena.getD i default)

/-- Sum of the hit counts over the buckets of `AllPatterns`. -/
def sumCounts (d : Data) : Nat :=
  ((allPatternsList d).map CallData.Count).sum

/-- Concatenation of the call lists over the buckets of `AllPatterns`. -/
def allCallsList (d : Data) : List Nat :=
  ((allPatternsList d).map CallData.Calls).flatten

example : (emptyData.addPattern 0 [(4, 4)] [(4, 4)]).AllPatterns = [0] := by decide

example : (emptyData.addPattern 0 [(4, 4)] [(4, 4)]).NToN = [0] := by decide

example :
    ((emptyData.addPattern 0 [(4, 4)] [(4, 4)]).addPattern 3 [(4, 4)] [(4, 4)]).bucket 0 =
      ⟨[(4, 4)], [(4, 4)], 2, [0, 3]⟩ := by decide

example : (emptyData.addPattern 0 [(101, 1), (1, 101)] []).OneToN = [0] := by decide

example : (emptyData.addPattern 0 [(101, 1), (1, 101)] []).NToOne = [0] := by decide

example : (emptyData.addPattern 0 [(1, 1), (2, 2)] []).NToN = [0, 0] := by decide

/-! Section: Arena access lemmas -/

lemma getD_append_lt {α : Type} (l l2 : List α) (i : Nat) (d : α) (h : i < l.length) :
    (l ++ l2).getD i d = l.getD i d :=
  List.getD_append l l2 d i h

lemma getD_append_len {α : Type} (l : List α) (x : α) (d : α) :
    (l ++ [x]).getD l.length d = x := by
  simp [List.getD_eq_getElem?_getD, List.getElem?_concat_length]

lemma getD_set_self {α : Type} (l : List α) (x : α) (i : Nat) (d : α) (h : i < l.length) :
    (l.set i x).getD i d = x := by
  simp [List.getD_eq_getElem?_getD, List.getElem?_set_self, h]

lemma getD_set_ne {α : Type} (l : List α) (x : α) (i j : Nat) (d : α) (h : j ≠ i) :
    (l.set i x).getD j d = l.getD j d := by
  simp [List.getD_eq_getElem?_getD, List.getElem?_set_ne (Ne.symm h)]

/-! Section: Lemmas about the classifier loop -/

lemma appendView_arena (d : Data) (v : TopoView) (i : Nat) :
    (appendView d v i).arena = d.arena := by
  cases v <;> rfl

lemma appendView_AllPatterns (d : Data) (v : TopoView) (i : Nat) :
    (appendView d v i).AllPatterns = d.AllPatterns := by
  cases v <;> rfl

lemma appendView_Empty (d : Data) (v : TopoView) (i : Nat) :
    (appendView d v i).Empty = d.Empty := by
  cases v <;> rfl

lemma classifyPattern_cons (kv : Int × Int) (rest : GoMap) (i : Nat) (d : Data) :
    classifyPattern (kv :: rest) i d =
      classifyPattern rest i
        (match classifySendEntry kv.1 kv.2 with
         | some v => appendView d v i
         | none => d) := by
  rfl

lemma classifyPattern_arena (s : GoMap) (i : Nat) :
    ∀ d : Data, (classifyPattern s i d).arena = d.arena := by
  induction s with
  | nil => intro d; rfl
  | cons kv rest ih =>
      intro d
      rw [classifyPattern_cons]
      cases h : classifySendEntry kv.1 kv.2 with
      | none => simp only [ih]
      | some v => simp only [ih, appendView_arena]

lemma classifyPattern_AllPatterns (s : GoMap) (i : Nat) :
    ∀ d : Data, (classifyPattern s i d).AllPatterns = d.AllPatterns := by
  induction s with
  | nil => intro d; rfl
  | cons kv rest ih =>
      intro d
      rw [classifyPattern_cons]
      cases h : classifySendEntry kv.1 kv.2 with
      | none => simp only [ih]
      | some v => simp only [ih, appendView_AllPatterns]

lemma classifyPattern_Empty (s : GoMap) (i : Nat) :
    ∀ d : Data, (classifyPattern s i d).Empty = d.Empty := by
  induction s with
  | nil => intro d; rfl
  | cons kv rest ih =>
      intro d
      rw [classifyPattern_cons]
      cases h : classifySendEntry kv.1 kv.2 with
      | none => simp only [ih]
      | some v => simp only [ih, appendView_Empty]

lemma classifyPattern_OneToN (s : GoMap) (i : Nat) :
    ∀ d : Data, (classifyPattern s i d).OneToN =
      d.OneToN ++
        List.replicate (s.countP (fun kv => classifySendEntry kv.1 kv.2 == some .oneToN)) i := by
  induction s with
  | nil => intro d; simp [classifyPattern]
  | cons kv rest ih =>
      intro d
      rw [classifyPattern_cons]
      cases h : classifySendEntry kv.1 kv.2 with
      | none =>
          rw [ih]
          simp [List.countP_cons, h]
      | some v =>
          rw [ih]
          cases v <;>
            simp [appendView, List.countP_cons, h, List.replicate_succ,
              List.append_assoc]

lemma classifyPattern_NToN (s : GoMap) (i : Nat) :
    ∀ d : Data, (classifyPattern s i d).NToN =
      d.NToN ++
        List.replicate (s.countP (fun kv => classifySendEntry kv.1 kv.2 == some .nToN)) i := by
  induction s with
  | nil => intro d; simp [classifyPattern]
  | cons kv rest ih =>
      intro d
      rw [classifyPattern_cons]
      cases h : classifySendEntry kv.1 kv.2 with
      | none =>
          rw [ih]
          simp [List.countP_cons, h]
      | some v =>
          rw [ih]
          cases v <;>
            simp [appendView, List.countP_cons, h, List.replicate_succ,
              List.append_assoc]

lemma classifyPattern_NToOne (s : GoMap) (i : Nat) :
    ∀ d : Data, (classifyPattern s i d).NToOne =
      d.NToOne ++
        List.replicate (s.countP (fun kv => classifySendEntry kv.1 kv.2 == some .nToOne)) i := by
  induction s with
  | nil => intro d; simp [classifyPattern]
  | cons kv rest ih =>
      intro d
      rw [classifyPattern_cons]
      cases h : classifySendEntry kv.1 kv.2 with
      | none =>
          rw [ih]
          simp [List.countP_cons, h]
      | some v =>
          rw [ih]
          cases v <;>
            simp [appendView, List.countP_cons, h, List.replicate_succ,
              List.append_assoc]

/-! Section: Lemmas about the linear bucket scan -/

lemma findMatch_mem {arena : List CallData} {l : List Nat} {s r : GoMap} {i : Nat}
    (h : findMatch arena l s r = some i) : i ∈ l := by
  induction l with
  | nil => simp [findMatch] at h
  | cons j rest ih =>
      rw [findMatch] at h
      by_cases hm : matchesBucket (arena.getD j default) s r = true
      · rw [if_pos hm] at h
        rw [Option.some_inj] at h
        exact h ▸ List.mem_cons_self j rest
      · rw [if_neg hm] at h
        exact List.mem_cons_of_mem _ (ih h)

lemma findMatch_eq_none {arena : List CallData} {l : List Nat} {s r : GoMap}
    (h : ∀ i ∈ l, matchesBucket (arena.getD i default) s r = false) :
    findMatch arena l s r = none := by
  induction l with
  | nil => rfl
  | cons j rest ih =>
      rw [findMatch]
      rw [if_neg (by rw [h j (List.mem_cons_self j rest)]; simp)]
      exact ih fun i hi => h i (List.mem_cons_of_mem _ hi)

lemma findMatch_append_last {arena : List CallData} {P : List Nat} {A : Nat} {s r : GoMap}
    (hP : ∀ i ∈ P, matchesBucket (arena.getD i default) s r = false)
    (hA : matchesBucket (arena.getD A default) s r = true) :
    findMatch arena (P ++ [A]) s r = some A := by
  induction P with
  | nil =>
      rw [List.nil_append, findMatch, if_pos hA]
  | cons j rest ih =>
      rw [List.cons_append, findMatch]
      rw [if_neg (by rw [hP j (List.mem_cons_self j rest)]; simp)]
      exact ih fun i hi => hP i (List.mem_cons_of_mem _ hi)

lemma matchesBucket_bumpCD (cd : CallData) (c : Nat) (s r : GoMap) :
    matchesBucket (bumpCD cd c) s r = matchesBucket cd s r := rfl

lemma addPattern_eq_merge {d : Data} {s r : GoMap} {i : Nat} (c : Nat)
    (h : findMatch d.arena d.AllPatterns s r = some i) :
    d.addPattern c s r =
      { d with arena := d.arena.set i (bumpCD (d.arena.getD i default) c) } := by
  rw [Data.addPattern, h]

lemma addPattern_eq_create {d : Data} {s r : GoMap} (c : Nat)
    (h : findMatch d.arena d.AllPatterns s r = none) :
    d.addPattern c s r =
      classifyPattern s d.arena.length
        { d with arena := d.arena ++ [⟨s, r, 1, [c]⟩],
                 AllPatterns := d.AllPatterns ++ [d.arena.length] } := by
  rw [Data.addPattern, h]

/-! Section: Feeding one signature pair repeatedly (claims C1, C8) -/

lemma CallData.ext4 (a b : CallData) (h1 : a.Send = b.Send) (h2 : a.Recv = b.Recv)
    (h3 : a.Count = b.Count) (h4 : a.Calls = b.Calls) : a = b := by
  cases a; cases b
  cases h1; cases h2; cases h3; cases h4
  rfl

/-- Feeding a fixed `(sendSig, recvSig)` pair for each call index of `calls`,
in order, into a collection (iterated `Data.addPattern`). -/
def feedSame (d : Data) (calls : List Nat) (s r : GoMap) : Data :=
  calls.foldl (fun acc c => acc.addPattern c s r) d

lemma feedSame_cons (d : Data) (c : Nat) (cs : List Nat) (s r : GoMap) :
    feedSame d (c :: cs) s r = feedSame (d.addPattern c s r) cs s r := rfl

/-- The bucket indices of `AllPatterns` whose stored signature pair deep-equals
`(s, r)`. -/
def bucketsFor (d : Data) (s r : GoMap) : List Nat :=
  d.AllPatterns.filter (fun i => matchesBucket (d.arena.getD i default) s r)

lemma feedSame_merge (s r : GoMap) :
    ∀ (calls : List Nat) (d : Data) (P : List Nat) (A : Nat),
      d.AllPatterns = P ++ [A] →
      A < d.arena.length →
      (∀ i ∈ P, matchesBucket (d.arena.getD i default) s r = false) →
      matchesBucket (d.arena.getD A default) s r = true →
      (feedSame d calls s r).arena.length = d.arena.length ∧
      (feedSame d calls s r).AllPatterns = d.AllPatterns ∧
      (feedSame d calls s r).OneToN = d.OneToN ∧
      (feedSame d calls s r).NToN = d.NToN ∧
      (feedSame d calls s r).NToOne = d.NToOne ∧
      (feedSame d calls s r).Empty = d.Empty ∧
      (∀ j, j ≠ A → (feedSame d calls s r).arena.getD j default = d.arena.getD j default) ∧
      (feedSame d calls s r).arena.getD A default =
        { d.arena.getD A default with
            Count := (d.arena.getD A default).Count + calls.length,
            Calls := (d.arena.getD A default).Calls ++ calls } := by
  intro calls
  induction calls with
  | nil =>
      intro d P A hAP hA hPf hAt
      refine ⟨rfl, rfl, rfl, rfl, rfl, rfl, fun j _ => rfl, ?_⟩
      have hfd : feedSame d [] s r = d := rfl
      rw [hfd]
      apply CallData.ext4 <;> simp
  | cons c cs ih =>
      intro d P A hAP hA hPf hAt
      rw [feedSame_cons]
      have hfm : findMatch d.arena d.AllPatterns s r = some A := by
        rw [hAP]; exact findMatch_append_last hPf hAt
      rw [addPattern_eq_merge c hfm]
      have h1len :
          ({ d with arena := d.arena.set A (bumpCD (d.arena.getD A default) c) } : Data).arena.length
            = d.arena.length := by simp
      have h1A :
          ({ d with arena := d.arena.set A (bumpCD (d.arena.getD A default) c) } : Data).arena.getD A default
            = bumpCD (d.arena.getD A default) c :=
        getD_set_self _ _ _ _ hA
      have h1j : ∀ j, j ≠ A →
          ({ d with arena := d.arena.set A (bumpCD (d.arena.getD A default) c) } : Data).arena.getD j default
            = d.arena.getD j default :=
        fun j hj => getD_set_ne _ _ _ _ _ hj
      have h1P : ∀ i ∈ P,
          matchesBucket
            (({ d with arena := d.arena.set A (bumpCD (d.arena.getD A default) c) } : Data).arena.getD i default)
            s r = false := by
        intro i hi
        have hfalse := hPf i hi
        have hne : i ≠ A := by
          intro hEq
          rw [hEq] at hfalse
          rw [hfalse] at hAt
          exact Bool.false_ne_true hAt
        rw [h1j i hne]
        exact hfalse
      have h1At :
          matchesBucket
            (({ d with arena := d.arena.set A (bumpCD (d.arena.getD A default) c) } : Data).arena.getD A default)
            s r = true := by
        rw [h1A, matchesBucket_bumpCD]; exact hAt
      obtain ⟨l1, l2, l3, l4, l5, l6, l7, l8⟩ :=
        ih { d with arena := d.arena.set A (bumpCD (d.arena.getD A default) c) } P A hAP
          (by rw [h1len]; exact hA) h1P h1At
      refine ⟨?_, l2, l3, l4, l5, l6, ?_, ?_⟩
      · rw [l1, h1len]
      · intro j hj
        rw [l7 j hj, h1j j hj]
      · rw [l8, h1A]
        apply CallData.ext4 <;> simp [bumpCD]
        omega

/-- Claim C8: when `addPattern` matches an existing bucket, only that
bucket's hit count and call list change: `AllPatterns` keeps its length and
order, the `OneToN`, `NToN`, `NToOne` and `Empty` views are untouched, the
arena keeps its length, and every other bucket is unchanged — the classifier
runs only at bucket creation and buckets are never removed. -/
theorem addPattern_merge_frame (d : Data) (c : Nat) (s r : GoMap) (i : Nat)
    (hwf : ∀ j ∈ d.AllPatterns, j < d.arena.length)
    (hm : findMatch d.arena d.AllPatterns s r = some i) :
    (d.addPattern c s r).AllPatterns = d.AllPatterns ∧
    (d.addPattern c s r).OneToN = d.OneToN ∧
    (d.addPattern c s r).NToN = d.NToN ∧
    (d.addPattern c s r).NToOne = d.NToOne ∧
    (d.addPattern c s r).Empty = d.Empty ∧
    (d.addPattern c s r).arena.length = d.arena.length ∧
    (d.addPattern c s r).arena.getD i default =
      { d.arena.getD i default with
          Count := (d.arena.getD i default).Count + 1,
          Calls := (d.arena.getD i default).Calls ++ [c] } ∧
    (∀ j, j ≠ i → (d.addPattern c s r).arena.getD j default = d.arena.getD j default) := by
  rw [addPattern_eq_merge c hm]
  have hi : i < d.arena.length := hwf i (findMatch_mem hm)
  exact ⟨rfl, rfl, rfl, rfl, rfl, by simp, getD_set_self _ _ _ _ hi,
    fun j hj => getD_set_ne _ _ _ _ _ hj⟩

lemma feedSame_fresh_pair (d : Data) (s r : GoMap) (c : Nat) (cs : List Nat)
    (hwf : ∀ i ∈ d.AllPatterns, i < d.arena.length)
    (hno : ∀ i ∈ d.AllPatterns, matchesBucket (d.arena.getD i default) s r = false)
    (hs : CompareCallPatterns s s = true)
    (hr : CompareCallPatterns r r = true) :
    (feedSame d (c :: cs) s r).AllPatterns = d.AllPatterns ++ [d.arena.length] ∧
    (feedSame d (c :: cs) s r).arena.getD d.arena.length default =
      ⟨s, r, (c :: cs).length, c :: cs⟩ ∧
    bucketsFor (feedSame d (c :: cs) s r) s r = [d.arena.length] := by
  rw [feedSame_cons]
  have hfm : findMatch d.arena d.AllPatterns s r = none := findMatch_eq_none hno
  rw [addPattern_eq_create c hfm]
  have h1arena :
      (classifyPattern s d.arena.length
        { d with arena := d.arena ++ [⟨s, r, 1, [c]⟩],
                 AllPatterns := d.AllPatterns ++ [d.arena.length] }).arena
        = d.arena ++ [⟨s, r, 1, [c]⟩] :=
    classifyPattern_arena s d.arena.length _
  have h1AP :
      (classifyPattern s d.arena.length
        { d with arena := d.arena ++ [⟨s, r, 1, [c]⟩],
                 AllPatterns := d.AllPatterns ++ [d.arena.length] }).AllPatterns
        = d.AllPatterns ++ [d.arena.length] :=
    classifyPattern_AllPatterns s d.arena.length _
  have hgetA :
      (classifyPattern s d.arena.length
        { d with arena := d.arena ++ [⟨s, r, 1, [c]⟩],
                 AllPatterns := d.AllPatterns ++ [d.arena.length] }).arena.getD
          d.arena.length default = ⟨s, r, 1, [c]⟩ := by
    rw [h1arena]; exact getD_append_len _ _ _
  have hgetOld : ∀ i ∈ d.AllPatterns,
      (classifyPattern s d.arena.length
        { d with arena := d.arena ++ [⟨s, r, 1, [c]⟩],
                 AllPatterns := d.AllPatterns ++ [d.arena.length] }).arena.getD i default
        = d.arena.getD i default := by
    intro i hi
    rw [h1arena]
    exact getD_append_lt _ _ _ _ (hwf i hi)
  have hmA :
      matchesBucket
        ((classifyPattern s d.arena.length
          { d with arena := d.arena ++ [⟨s, r, 1, [c]⟩],
                   AllPatterns := d.AllPatterns ++ [d.arena.length] }).arena.getD
            d.arena.length default) s r = true := by
    rw [hgetA]
    simp [matchesBucket, hs, hr]
  have hmP : ∀ i ∈ d.AllPatterns,
      matchesBucket
        ((classifyPattern s d.arena.length
          { d with arena := d.arena ++ [⟨s, r, 1, [c]⟩],
                   AllPatterns := d.AllPatterns ++ [d.arena.length] }).arena.getD i default)
        s r = false := by
    intro i hi
    rw [hgetOld i hi]
    exact hno i hi
  have hAlen :
      d.arena.length <
        (classifyPattern s d.arena.length
          { d with arena := d.arena ++ [⟨s, r, 1, [c]⟩],
                   AllPatterns := d.AllPatterns ++ [d.arena.length] }).arena.length := by
    rw [h1arena]
    simp
  obtain ⟨l1, l2, l3, l4, l5, l6, l7, l8⟩ :=
    feedSame_merge s r cs _ d.AllPatterns d.arena.length h1AP hAlen hmP hmA
  refine ⟨by rw [l2, h1AP], ?_, ?_⟩
  · rw [l8, hgetA]
    apply CallData.ext4 <;> simp
    omega
  · rw [bucketsFor, l2, h1AP, List.filter_append]
    have hold :
        d.AllPatterns.filter
          (fun i =>
            matchesBucket
              ((feedSame
                (classifyPattern s d.arena.length
                  { d with arena := d.arena ++ [⟨s, r, 1, [c]⟩],
                           AllPatterns := d.AllPatterns ++ [d.arena.length] }) cs s r).arena.getD
                  i default) s r) = [] := by
      rw [List.filter_eq_nil_iff]
      intro i hi
      have hiA : i ≠ d.arena.length := Nat.ne_of_lt (hwf i hi)
      rw [l7 i hiA, hgetOld i hi, hno i hi]
      exact Bool.false_ne_true
    rw [hold, List.nil_append]
    have hlast :
        matchesBucket
          ((feedSame
            (classifyPattern s d.arena.length
              { d with arena := d.arena ++ [⟨s, r, 1, [c]⟩],
                       AllPatterns := d.AllPatterns ++ [d.arena.length] }) cs s r).arena.getD
              d.arena.length default) s r = true := by
      rw [l8, hgetA]
      simp [matchesBucket, hs, hr]
    refine (List.filter_cons_of_pos ?_).trans ?_
    · exact hlast
    · rw [List.filter_nil]

/-- Claim C1: Feeding the same structurally-equal `(sendSig, recvSig)` pair `N`
times (`N ≥ 1`, arbitrary call indices `calls`) into a collection with no
bucket deep-equal to that pair produces exactly one bucket for the pair
(appended at the end of `AllPatterns`), whose hit count is `N` and whose call
list is exactly `calls` in insertion order; the bucket is created with hit
count 1 on the first feed (final state: count `calls.length`, list `calls`). -/
theorem addPattern_same_pair_unique_bucket (d : Data) (s r : GoMap) (calls : List Nat)
    (hwf : ∀ i ∈ d.AllPatterns, i < d.arena.length)
    (hno : ∀ i ∈ d.AllPatterns, matchesBucket (d.arena.getD i default) s r = false)
    (hs : CompareCallPatterns s s = true)
    (hr : CompareCallPatterns r r = true)
    (hne : calls ≠ []) :
    (feedSame d calls s r).AllPatterns = d.AllPatterns ++ [d.arena.length] ∧
    (feedSame d calls s r).arena.getD d.arena.length default =
      ⟨s, r, calls.length, calls⟩ ∧
    bucketsFor (feedSame d calls s r) s r = [d.arena.length] := by
  cases calls with
  | nil => exact absurd rfl hne
  | cons c cs => exact feedSame_fresh_pair d s r c cs hwf hno hs hr

/-- Witness for C1: three feeds of the pair `([(4,4)], [(2,2)])` into the
empty collection give one bucket with count 3 and calls `[5, 7, 9]`. -/
theorem addPattern_same_pair_unique_bucket_witness :
    (feedSame emptyData [5, 7, 9] [(4, 4)] [(2, 2)]).AllPatterns = [] ++ [0] ∧
    (feedSame emptyData [5, 7, 9] [(4, 4)] [(2, 2)]).arena.getD 0 default =
      ⟨[(4, 4)], [(2, 2)], 3, [5, 7, 9]⟩ ∧
    bucketsFor (feedSame emptyData [5, 7, 9] [(4, 4)] [(2, 2)]) [(4, 4)] [(2, 2)] = [0] :=
  addPattern_same_pair_unique_bucket emptyData [(4, 4)] [(2, 2)] [5, 7, 9]
    (by decide) (by decide) (by decide) (by decide) (by decide)

/-- Witness for C8: merging call 1 into the bucket created by call 0 leaves
every list of the collection unchanged except that bucket's count and calls. -/
theorem addPattern_merge_frame_witness :
    ((emptyData.addPattern 0 [(4, 4)] [(4, 4)]).addPattern 1 [(4, 4)] [(4, 4)]).AllPatterns =
      (emptyData.addPattern 0 [(4, 4)] [(4, 4)]).AllPatterns ∧
    ((emptyData.addPattern 0 [(4, 4)] [(4, 4)]).addPattern 1 [(4, 4)] [(4, 4)]).OneToN =
      (emptyData.addPattern 0 [(4, 4)] [(4, 4)]).OneToN ∧
    ((emptyData.addPattern 0 [(4, 4)] [(4, 4)]).addPattern 1 [(4, 4)] [(4, 4)]).NToN =
      (emptyData.addPattern 0 [(4, 4)] [(4, 4)]).NToN ∧
    ((emptyData.addPattern 0 [(4, 4)] [(4, 4)]).addPattern 1 [(4, 4)] [(4, 4)]).NToOne =
      (emptyData.addPattern 0 [(4, 4)] [(4, 4)]).NToOne ∧
    ((emptyData.addPattern 0 [(4, 4)] [(4, 4)]).addPattern 1 [(4, 4)] [(4, 4)]).Empty =
      (emptyData.addPattern 0 [(4, 4)] [(4, 4)]).Empty ∧
    ((emptyData.addPattern 0 [(4, 4)] [(4, 4)]).addPattern 1 [(4, 4)] [(4, 4)]).arena.length =
      (emptyData.addPattern 0 [(4, 4)] [(4, 4)]).arena.length ∧
    ((emptyData.addPattern 0 [(4, 4)] [(4, 4)]).addPattern 1 [(4, 4)] [(4, 4)]).arena.getD 0 default =
      { (emptyData.addPattern 0 [(4, 4)] [(4, 4)]).arena.getD 0 default with
          Count := ((emptyData.addPattern 0 [(4, 4)] [(4, 4)]).arena.getD 0 default).Count + 1,
          Calls := ((emptyData.addPattern 0 [(4, 4)] [(4, 4)]).arena.getD 0 default).Calls ++ [1] } ∧
    (∀ j, j ≠ 0 →
      ((emptyData.addPattern 0 [(4, 4)] [(4, 4)]).addPattern 1 [(4, 4)] [(4, 4)]).arena.getD j default =
        (emptyData.addPattern 0 [(4, 4)] [(4, 4)]).arena.getD j default) :=
  addPattern_merge_frame (emptyData.addPattern 0 [(4, 4)] [(4, 4)]) 1 [(4, 4)] [(4, 4)] 0
    (by decide) (by decide)

/-! Section: The topology classifier thresholds (claims C3, C4) -/

/-- Claim C3: For a signature entry with non-negative rank count `n`, the
classifier tags with strict comparisons and the exact `100×` multiplier:
one-to-many iff `p > n*100`, many-to-many iff `p == n`, many-to-one iff
`p*100 < n`, and an entry matching none of the rules is classified into no
topology view. -/
theorem classifySendEntry_thresholds (p n : Int) (hn : 0 ≤ n) :
    (classifySendEntry p n = some .oneToN ↔ p > n * 100) ∧
    (classifySendEntry p n = some .nToN ↔ p = n) ∧
    (classifySendEntry p n = some .nToOne ↔ p * 100 < n) ∧
    (classifySendEntry p n = none ↔ ¬p > n * 100 ∧ p ≠ n ∧ ¬p * 100 < n) := by
  unfold classifySendEntry
  by_cases h1 : p > n * 100
  · rw [if_pos h1]
    refine ⟨⟨fun _ => h1, fun _ => rfl⟩, ⟨fun h => by simp at h, fun h => absurd h1 (by omega)⟩,
      ⟨fun h => by simp at h, fun h => absurd h1 (by omega)⟩,
      ⟨fun h => by simp at h, fun h => absurd h1 h.1⟩⟩
  · rw [if_neg h1]
    by_cases h2 : p = n
    · rw [if_pos h2]
      refine ⟨⟨fun h => by simp at h, fun h => absurd h h1⟩, ⟨fun _ => h2, fun _ => rfl⟩,
        ⟨fun h => by simp at h, fun h => absurd h (by omega)⟩,
        ⟨fun h => by simp at h, fun h => absurd h2 h.2.1⟩⟩
    · rw [if_neg h2]
      by_cases h3 : p * 100 < n
      · rw [if_pos h3]
        refine ⟨⟨fun h => by simp at h, fun h => absurd h h1⟩,
          ⟨fun h => by simp at h, fun h => absurd h h2⟩,
          ⟨fun _ => h3, fun _ => rfl⟩, ⟨fun h => by simp at h, fun h => absurd h3 h.2.2⟩⟩
      · rw [if_neg h3]
        refine ⟨⟨fun h => by simp at h, fun h => absurd h h1⟩,
          ⟨fun h => by simp at h, fun h => absurd h h2⟩,
          ⟨fun h => by simp at h, fun h => absurd h h3⟩, ⟨fun _ => ⟨h1, h2, h3⟩, fun _ => rfl⟩⟩

/-- Witness for C3 at the spec's threshold examples: `(101, 1)` is
one-to-many (`101 > 1*100`) and `(100, 1)` matches no rule. -/
theorem classifySendEntry_thresholds_witness :
    (classifySendEntry 101 1 = some .oneToN ↔ (101 : Int) > 1 * 100) ∧
    (classifySendEntry 100 1 = none ↔
      ¬(100 : Int) > 1 * 100 ∧ (100 : Int) ≠ 1 ∧ ¬(100 : Int) * 100 < 1) :=
  ⟨(classifySendEntry_thresholds 101 1 (by decide)).1,
   (classifySendEntry_thresholds 100 1 (by decide)).2.2.2⟩

/-- The collection obtained from one call whose send signature holds a
one-to-many entry `(101, 1)` and a many-to-one entry `(1, 101)`. -/
def c4TwoViews : Data := emptyData.addPattern 0 [(101, 1), (1, 101)] []

/-- The collection obtained from one call whose send signature holds the two
many-to-many entries `(1, 1)` and `(2, 2)`. -/
def c4TwiceSame : Data := emptyData.addPattern 0 [(1, 1), (2, 2)] []

/-- Claim C4, counterexample: The single bucket of `c4TwoViews` is referenced
by both the `OneToN` and the `NToOne` view, and the single bucket of
`c4TwiceSame` appears twice in the `NToN` view: a bucket with several send
signature entries is not referenced by at most one topology view. -/
theorem bucket_in_two_views_counterexample :
    c4TwoViews.AllPatterns = [0] ∧ c4TwoViews.OneToN = [0] ∧ c4TwoViews.NToOne = [0] ∧
    c4TwiceSame.AllPatterns = [0] ∧ c4TwiceSame.NToN = [0, 0] := by
  decide

/-- Claim C4, amended: Classification is mutually exclusive per send-signature
entry, not per bucket: when a new bucket is created for a send signature with
a single entry, the new bucket index is referenced at most once across the
three topology views together. -/
theorem addPattern_singleton_entry_one_view (d : Data) (c : Nat) (p n : Int) (r : GoMap)
    (hwfO : ∀ i ∈ d.OneToN, i < d.arena.length)
    (hwfN : ∀ i ∈ d.NToN, i < d.arena.length)
    (hwf1 : ∀ i ∈ d.NToOne, i < d.arena.length)
    (hno : findMatch d.arena d.AllPatterns [(p, n)] r = none) :
    (d.addPattern c [(p, n)] r).OneToN.count d.arena.length +
      (d.addPattern c [(p, n)] r).NToN.count d.arena.length +
      (d.addPattern c [(p, n)] r).NToOne.count d.arena.length ≤ 1 := by
  rw [addPattern_eq_create c hno]
  rw [classifyPattern_OneToN, classifyPattern_NToN, classifyPattern_NToOne]
  have hO : d.OneToN.count d.arena.length = 0 :=
    List.count_eq_zero_of_not_mem fun hm => absurd (hwfO _ hm) (lt_irrefl _)
  have hN : d.NToN.count d.arena.length = 0 :=
    List.count_eq_zero_of_not_mem fun hm => absurd (hwfN _ hm) (lt_irrefl _)
  have h1 : d.NToOne.count d.arena.length = 0 :=
    List.count_eq_zero_of_not_mem fun hm => absurd (hwf1 _ hm) (lt_irrefl _)
  rw [List.count_append, List.count_append, List.count_append]
  rw [List.count_replicate_self, List.count_replicate_self, List.count_replicate_self]
  rw [hO, hN, h1]
  cases h : classifySendEntry p n with
  | none => simp [List.countP_cons, h]
  | some v => cases v <;> simp [List.countP_cons, h]

/-- Witness for C4's amended claim at the singleton signature `[(1, 1)]`. -/
theorem addPattern_singleton_entry_one_view_witness :
    (emptyData.addPattern 0 [(1, 1)] []).OneToN.count 0 +
      (emptyData.addPattern 0 [(1, 1)] []).NToN.count 0 +
      (emptyData.addPattern 0 [(1, 1)] []).NToOne.count 0 ≤ 1 :=
  addPattern_singleton_entry_one_view emptyData 0 1 1 []
    (by decide) (by decide) (by decide) (by decide)

/-! Section: Conservation invariants of the classification pass (claims C2, C10) -/

lemma sum_map_getD_set (arena : List CallData) (i : Nat) (x : CallData)
    (g : CallData → Nat) (δ : Nat) (hlen : i < arena.length)
    (hx : g x = g (arena.getD i default) + δ) :
    ∀ l : List Nat, l.Nodup → i ∈ l →
      (l.map (fun j => g ((arena.set i x).getD j default))).sum
        = (l.map (fun j => g (arena.getD j default))).sum + δ := by
  intro l
  induction l with
  | nil => intro _ hi; cases hi
  | cons a rest ih =>
      intro hnd hi
      rcases List.mem_cons.mp hi with rfl | hmem
      · have hnotin : i ∉ rest := (List.nodup_cons.mp hnd).1
        have hrest : rest.map (fun j => g ((arena.set i x).getD j default))
            = rest.map (fun j => g (arena.getD j default)) := by
          apply List.map_congr_left
          intro j hj
          have : j ≠ i := fun hEq => hnotin (hEq ▸ hj)
          rw [getD_set_ne _ _ _ _ _ this]
        rw [List.map_cons, List.map_cons, List.sum_cons, List.sum_cons, hrest,
          getD_set_self _ _ _ _ hlen, hx]
        omega
      · have hane : a ≠ i := fun hEq => (List.nodup_cons.mp hnd).1 (hEq ▸ hmem)
        rw [List.map_cons, List.map_cons, List.sum_cons, List.sum_cons,
          getD_set_ne _ _ _ _ _ hane, ih (List.nodup_cons.mp hnd).2 hmem]
        omega

lemma sumCounts_eq (d : Data) :
    sumCounts d = (d.AllPatterns.map (fun j => (d.arena.getD j default).Count)).sum := by
  simp [sumCounts, allPatternsList, List.map_map, Function.comp_def]

lemma allCallsList_count (d : Data) (c : Nat) :
    (allCallsList d).count c
      = (d.AllPatterns.map (fun j => ((d.arena.getD j default).Calls).count c)).sum := by
  simp [allCallsList, allPatternsList, List.count_flatten, List.map_map, Function.comp_def]

lemma addPattern_invariants (d : Data) (k : Nat) (s r : GoMap)
    (hlt : ∀ i ∈ d.AllPatterns, i < d.arena.length)
    (hnd : d.AllPatterns.Nodup) :
    (∀ i ∈ (d.addPattern k s r).AllPatterns, i < (d.addPattern k s r).arena.length) ∧
    (d.addPattern k s r).AllPatterns.Nodup ∧
    d.arena.length ≤ (d.addPattern k s r).arena.length ∧
    sumCounts (d.addPattern k s r) = sumCounts d + 1 ∧
    (∀ c, (allCallsList (d.addPattern k s r)).count c
        = (allCallsList d).count c + if c = k then 1 else 0) ∧
    (d.addPattern k s r).Empty = d.Empty ∧
    (∀ j, j < d.arena.length → j ∉ d.AllPatterns →
      (d.addPattern k s r).arena.getD j default = d.arena.getD j default) ∧
    (∀ i ∈ (d.addPattern k s r).AllPatterns, i ∈ d.AllPatterns ∨ i = d.arena.length) := by
  cases hfm : findMatch d.arena d.AllPatterns s r with
  | some i =>
      rw [addPattern_eq_merge k hfm]
      have hiAP : i ∈ d.AllPatterns := findMatch_mem hfm
      have hilen : i < d.arena.length := hlt i hiAP
      refine ⟨?_, hnd, ?_, ?_, ?_, rfl, ?_, fun j hj => Or.inl hj⟩
      · intro j hj
        simpa using hlt j hj
      · simp
      · rw [sumCounts_eq, sumCounts_eq]
        show (d.AllPatterns.map
            (fun j => (fun cd => cd.Count) ((d.arena.set i (bumpCD (d.arena.getD i default) k)).getD j default))).sum
          = (d.AllPatterns.map (fun j => (fun cd => cd.Count) (d.arena.getD j default))).sum + 1
        exact sum_map_getD_set d.arena i _ (fun cd => cd.Count) 1 hilen rfl
          d.AllPatterns hnd hiAP
      · intro c
        rw [allCallsList_count, allCallsList_count]
        show (d.AllPatterns.map
            (fun j => (fun cd => cd.Calls.count c)
              ((d.arena.set i (bumpCD (d.arena.getD i default) k)).getD j default))).sum
          = (d.AllPatterns.map (fun j => (fun cd => cd.Calls.count c) (d.arena.getD j default))).sum
            + if c = k then 1 else 0
        refine sum_map_getD_set d.arena i _ (fun cd => cd.Calls.count c) _ hilen ?_
          d.AllPatterns hnd hiAP
        show ((d.arena.getD i default).Calls ++ [k]).count c
          = (d.arena.getD i default).Calls.count c + if c = k then 1 else 0
        rw [List.count_append]
        congr 1
        by_cases hck : c = k
        · subst hck; simp
        · simp [hck]
      · intro j _ hjn
        exact getD_set_ne _ _ _ _ _ (fun hEq => hjn (hEq ▸ hiAP))
  | none =>
      rw [addPattern_eq_create k hfm]
      have harena :
          (d.addPattern k s r).arena = d.arena ++ [⟨s, r, 1, [k]⟩] := by
        rw [addPattern_eq_create k hfm]; exact classifyPattern_arena s d.arena.length _
      rw [addPattern_eq_create k hfm] at harena
      have hAP :
          (classifyPattern s d.arena.length
            { d with arena := d.arena ++ [⟨s, r, 1, [k]⟩],
                     AllPatterns := d.AllPatterns ++ [d.arena.length] }).AllPatterns
            = d.AllPatterns ++ [d.arena.length] :=
        classifyPattern_AllPatterns s d.arena.length _
      have hEmp :
          (classifyPattern s d.arena.length
            { d with arena := d.arena ++ [⟨s, r, 1, [k]⟩],
                     AllPatterns := d.AllPatterns ++ [d.arena.length] }).Empty
            = d.Empty :=
        classifyPattern_Empty s d.arena.length _
      have hlen :
          (classifyPattern s d.arena.length
            { d with arena := d.arena ++ [⟨s, r, 1, [k]⟩],
                     AllPatterns := d.AllPatterns ++ [d.arena.length] }).arena.length
            = d.arena.length + 1 := by
        rw [harena]; simp
      have hget : ∀ j, j < d.arena.length →
          (classifyPattern s d.arena.length
            { d with arena := d.arena ++ [⟨s, r, 1, [k]⟩],
                     AllPatterns := d.AllPatterns ++ [d.arena.length] }).arena.getD j default
            = d.arena.getD j default := by
        intro j hj
        rw [harena]
        exact getD_append_lt _ _ _ _ hj
      have hgetNew :
          (classifyPattern s d.arena.length
            { d with arena := d.arena ++ [⟨s, r, 1, [k]⟩],
                     AllPatterns := d.AllPatterns ++ [d.arena.length] }).arena.getD
              d.arena.length default = ⟨s, r, 1, [k]⟩ := by
        rw [harena]
        exact getD_append_len _ _ _
      refine ⟨?_, ?_, ?_, ?_, ?_, hEmp, ?_, ?_⟩
      · intro i hi
        rw [hAP] at hi
        rw [hlen]
        rcases List.mem_append.mp hi with hi | hi
        · exact Nat.lt_succ_of_lt (hlt i hi)
        · rw [List.mem_singleton.mp hi]
          exact Nat.lt_succ_self _
      · rw [hAP]
        refine List.Nodup.append hnd (List.nodup_singleton _) ?_
        intro a ha hb
        rw [List.mem_singleton.mp hb] at ha
        exact absurd (hlt _ ha) (lt_irrefl _)
      · rw [hlen]; omega
      · rw [sumCounts_eq, sumCounts_eq, hAP, List.map_append, List.sum_append]
        have hcongr :
            d.AllPatterns.map
              (fun j => ((classifyPattern s d.arena.length
                { d with arena := d.arena ++ [⟨s, r, 1, [k]⟩],
                         AllPatterns := d.AllPatterns ++ [d.arena.length] }).arena.getD
                  j default).Count)
              = d.AllPatterns.map (fun j => ((d.arena.getD j default).Count)) :=
          List.map_congr_left fun j hj => by rw [hget j (hlt j hj)]
        rw [hcongr]
        simp only [List.map_cons, List.map_nil, List.sum_cons, List.sum_nil, hgetNew]
        omega
      · intro c
        rw [allCallsList_count, allCallsList_count, hAP, List.map_append, List.sum_append]
        have hcongr :
            d.AllPatterns.map
              (fun j => (((classifyPattern s d.arena.length
                { d with arena := d.arena ++ [⟨s, r, 1, [k]⟩],
                         AllPatterns := d.AllPatterns ++ [d.arena.length] }).arena.getD
                  j default).Calls).count c)
              = d.AllPatterns.map (fun j => (((d.arena.getD j default).Calls).count c)) :=
          List.map_congr_left fun j hj => by rw [hget j (hlt j hj)]
        rw [hcongr]
        simp only [List.map_cons, List.map_nil, List.sum_cons, List.sum_nil, hgetNew]
        by_cases hck : c = k
        · subst hck; simp
        · simp [hck]
      · intro j hj _
        exact hget j hj
      · intro i hi
        rw [hAP] at hi
        rcases List.mem_append.mp hi with hi | hi
        · exact Or.inl hi
        · exact Or.inr (List.mem_singleton.mp hi)

lemma appendEmptyRecord_arena (d1 : Data) (i : Nat) :
    (appendEmptyRecord d1 i).arena = d1.arena ++ [⟨[], [], 1, [i]⟩] := rfl

lemma appendEmptyRecord_AllPatterns (d1 : Data) (i : Nat) :
    (appendEmptyRecord d1 i).AllPatterns = d1.AllPatterns := rfl

lemma appendEmptyRecord_Empty (d1 : Data) (i : Nat) :
    (appendEmptyRecord d1 i).Empty = d1.Empty ++ [d1.arena.length] := rfl

/-- The loop invariant of the classification pass of `ParseFiles` after the
calls `0 .. k-1` have been processed. -/
structure PFInv (counts : Nat → CallCountsData) (k : Nat) (d : Data) : Prop where
  ap_lt : ∀ i ∈ d.AllPatterns, i < d.arena.length
  ap_nd : d.AllPatterns.Nodup
  emp_lt : ∀ j ∈ d.Empty, j < d.arena.length
  emp_ap : ∀ j ∈ d.Empty, j ∉ d.AllPatterns
  sum_eq : sumCounts d = k
  cnt : ∀ c : Nat, (allCallsList d).count c = if c < k then 1 else 0
  emp_chr : d.Empty.map (fun j => d.arena.getD j default)
      = ((List.range k).filter (fun i => isBarrier (counts i))).map
          (fun i => (⟨[], [], 1, [i]⟩ : CallData))

lemma PFInv_init (counts : Nat → CallCountsData) : PFInv counts 0 emptyData := by
  refine ⟨?_, ?_, ?_, ?_, ?_, ?_, ?_⟩
  · intro i hi; cases hi
  · exact List.nodup_nil
  · intro j hj; cases hj
  · intro j hj; cases hj
  · rfl
  · intro c; simp [allCallsList, allPatternsList, emptyData]
  · simp [emptyData]

lemma PFInv_step {counts : Nat → CallCountsData} {k : Nat} {d : Data}
    (h : PFInv counts k d) : PFInv counts (k + 1) (parseFilesStep (counts k) k d) := by
  obtain ⟨hlt, hnd, hel, hea, hsum, hcnt, hchr⟩ := h
  obtain ⟨a1, a2, a3, a4, a5, a6, a7, a8⟩ :=
    addPattern_invariants d k (counts k).SendPatterns (counts k).RecvPatterns hlt hnd
  have hsum1 : sumCounts (d.addPattern k (counts k).SendPatterns (counts k).RecvPatterns)
      = k + 1 := by rw [a4, hsum]
  have hcnt1 : ∀ c : Nat,
      (allCallsList (d.addPattern k (counts k).SendPatterns (counts k).RecvPatterns)).count c
        = if c < k + 1 then 1 else 0 := by
    intro c
    rw [a5 c, hcnt c]
    by_cases hc : c = k
    · subst hc; simp
    · by_cases hlt2 : c < k
      · have h1 : c < k + 1 := by omega
        simp [hlt2, h1, hc]
      · have h1 : ¬c < k + 1 := by omega
        simp [hlt2, h1, hc]
  have hd1get : ∀ j ∈ d.Empty,
      (d.addPattern k (counts k).SendPatterns (counts k).RecvPatterns).arena.getD j default
        = d.arena.getD j default :=
    fun j hj => a7 j (hel j hj) (hea j hj)
  have hd1el : ∀ j ∈ (d.addPattern k (counts k).SendPatterns (counts k).RecvPatterns).Empty,
      j < (d.addPattern k (counts k).SendPatterns (counts k).RecvPatterns).arena.length := by
    rw [a6]; intro j hj; exact lt_of_lt_of_le (hel j hj) a3
  have hd1ea : ∀ j ∈ (d.addPattern k (counts k).SendPatterns (counts k).RecvPatterns).Empty,
      j ∉ (d.addPattern k (counts k).SendPatterns (counts k).RecvPatterns).AllPatterns := by
    rw [a6]
    intro j hj hmem
    rcases a8 j hmem with hin | hEq
    · exact hea j hj hin
    · have := hel j hj
      omega
  have hd1chr :
      (d.addPattern k (counts k).SendPatterns (counts k).RecvPatterns).Empty.map
        (fun j =>
          (d.addPattern k (counts k).SendPatterns (counts k).RecvPatterns).arena.getD j default)
        = ((List.range k).filter (fun i => isBarrier (counts i))).map
            (fun i => (⟨[], [], 1, [i]⟩ : CallData)) := by
    rw [a6, ← hchr]
    exact List.map_congr_left fun j hj => hd1get j hj
  have hstep : parseFilesStep (counts k) k d =
      if isBarrier (counts k) then
        appendEmptyRecord (d.addPattern k (counts k).SendPatterns (counts k).RecvPatterns) k
      else d.addPattern k (counts k).SendPatterns (counts k).RecvPatterns := rfl
  rw [hstep]
  by_cases hb : isBarrier (counts k)
  · rw [if_pos hb]
    refine ⟨?_, ?_, ?_, ?_, ?_, ?_, ?_⟩
    · intro i hi
      rw [appendEmptyRecord_AllPatterns] at hi
      rw [appendEmptyRecord_arena]
      have := a1 i hi
      simp only [List.length_append, List.length_cons, List.length_nil]
      omega
    · rw [appendEmptyRecord_AllPatterns]
      exact a2
    · intro j hj
      rw [appendEmptyRecord_Empty] at hj
      rw [appendEmptyRecord_arena]
      simp only [List.length_append, List.length_cons, List.length_nil]
      rcases List.mem_append.mp hj with hj | hj
      · have := hd1el j hj; omega
      · rw [List.mem_singleton.mp hj]; omega
    · intro j hj
      rw [appendEmptyRecord_Empty] at hj
      rw [appendEmptyRecord_AllPatterns]
      rcases List.mem_append.mp hj with hj | hj
      · exact hd1ea j hj
      · rw [List.mem_singleton.mp hj]
        intro hmem
        have := a1 _ hmem
        omega
    · rw [sumCounts_eq, appendEmptyRecord_AllPatterns, appendEmptyRecord_arena]
      rw [sumCounts_eq] at hsum1
      rw [← hsum1]
      exact congrArg List.sum (List.map_congr_left fun j hj => by
        rw [getD_append_lt _ _ _ _ (a1 j hj)])
    · intro c
      rw [allCallsList_count, appendEmptyRecord_AllPatterns, appendEmptyRecord_arena]
      have h2 := hcnt1 c
      rw [allCallsList_count] at h2
      rw [← h2]
      exact congrArg List.sum (List.map_congr_left fun j hj => by
        rw [getD_append_lt _ _ _ _ (a1 j hj)])
    · rw [appendEmptyRecord_Empty, appendEmptyRecord_arena]
      rw [List.map_append, List.range_succ, List.filter_append, List.map_append]
      have hfk : List.filter (fun i => isBarrier (counts i)) [k] = [k] := by
        simp [hb]
      rw [hfk]
      congr 1
      · rw [← hd1chr]
        exact List.map_congr_left fun j hj => by
          rw [getD_append_lt _ _ _ _ (hd1el j hj)]
      · simp [getD_append_len]
  · rw [if_neg hb]
    refine ⟨a1, a2, hd1el, hd1ea, hsum1, hcnt1, ?_⟩
    rw [hd1chr, List.range_succ, List.filter_append]
    have hfk : List.filter (fun i => isBarrier (counts i)) [k] = [] := by
      simp [hb]
    rw [hfk, List.append_nil]

lemma ParseFiles_inv (counts : Nat → CallCountsData) (n : Nat) :
    PFInv counts n (ParseFiles counts n) := by
  induction n with
  | zero => exact PFInv_init counts
  | succ m ih =>
      have hstep : ParseFiles counts (m + 1) = parseFilesStep (counts m) m (ParseFiles counts m) := by
        rw [ParseFiles, ParseFiles, List.range_succ, List.foldl_append]
        rfl
      rw [hstep]
      exact PFInv_step ih

/-- Claim C2: After the classification pass feeds calls `0 .. numCalls-1` into
one collection, the hit counts over the buckets of `AllPatterns` sum to
`numCalls`, and every call index `c < numCalls` occurs in the concatenated
call lists of `AllPatterns` exactly once (and indices `≥ numCalls` never). -/
theorem parseFiles_call_conservation (counts : Nat → CallCountsData) (numCalls : Nat) :
    sumCounts (ParseFiles counts numCalls) = numCalls ∧
    ∀ c : Nat, (allCallsList (ParseFiles counts numCalls)).count c
        = if c < numCalls then 1 else 0 :=
  ⟨(ParseFiles_inv counts numCalls).sum_eq, (ParseFiles_inv counts numCalls).cnt⟩

/-- Claim C10: After `ParseFiles`, the `Empty` sequence holds, in call order,
exactly one freshly allocated record `⟨∅, ∅, 1, [i]⟩` per barrier-like call
`i` (both non-zero-count totals zero); its length is the number of such
calls; and no `Empty` entry aliases any bucket of `AllPatterns`. -/
theorem parseFiles_empty_tracking (counts : Nat → CallCountsData) (numCalls : Nat) :
    (ParseFiles counts numCalls).Empty.map
        (fun j => (ParseFiles counts numCalls).arena.getD j default)
      = ((List.range numCalls).filter (fun i => isBarrier (counts i))).map
          (fun i => (⟨[], [], 1, [i]⟩ : CallData)) ∧
    (ParseFiles counts numCalls).Empty.length
      = ((List.range numCalls).filter (fun i => isBarrier (counts i))).length ∧
    ∀ j ∈ (ParseFiles counts numCalls).Empty, j ∉ (ParseFiles counts numCalls).AllPatterns := by
  refine ⟨(ParseFiles_inv counts numCalls).emp_chr, ?_,
    (ParseFiles_inv counts numCalls).emp_ap⟩
  have hlen := congrArg List.length (ParseFiles_inv counts numCalls).emp_chr
  simpa using hlen

/-! Section: The structural comparison `Same` (claim C5) -/

/-- Function `patternIsInList` (src/unnamed/part_002, lines 113-130).  The Go loop body
tests `numP == numP && numRanks == numR` where `numP` is the iterated map key
and `numR` its value: the first conjunct compares the key with itself, so
only the rank count is ever consulted and the `numPeers` parameter is dead.
The comparison is transcribed verbatim. -/
def patternIsInList (numPeers numRanks : Int) (ctx : String) : List CallData → Nat
  | [] => 0
  | p :: rest =>
      if (if ctx = "SEND" then p.Send else p.Recv).any
          (fun kv => kv.1 == kv.1 && numRanks == kv.2) then
        p.Count
      else patternIsInList numPeers numRanks ctx rest

/-- Function `sameListOfPatterns` (src/unnamed/part_002, lines 132-162): every send
entry, then every recv entry, of every bucket of `patterns1` must yield a
non-zero `patternIsInList` count against `patterns2`; count differences are
only logged and never fail the comparison (the log call is dropped by the
model). -/
def sameListOfPatterns (patterns1 patterns2 : List CallData) : Bool :=
  (patterns1.all fun p1 => p1.Send.all
    fun kv => !(patternIsInList kv.1 kv.2 "SEND" patterns2 == 0)) &&
  (patterns1.all fun p1 => p1.Recv.all
    fun kv => !(patternIsInList kv.1 kv.2 "RECV" patterns2 == 0))

/-- Function `Same` (src/unnamed/part_002, lines 96-98). -/
def Same (patterns1 patterns2 : Data) : Bool :=
  sameListOfPatterns (allPatternsList patterns1) (allPatternsList patterns2)

/-- Reference collection for C5: one bucket with send signature `{2: 5}`. -/
def c5Reference : Data := emptyData.addPattern 0 [(2, 5)] []

/-- Target collection for C5: one bucket with send signature `{3: 5}`. -/
def c5Target : Data := emptyData.addPattern 0 [(3, 5)] []

/-- Claim C5: The claim fails on the code: the reference's send entry `(2, 5)`
has no `(peerCount, numRanks)` counterpart in the target (the target's only
send key is 3), yet `Same` returns `true`, because the self-comparison
`numP == numP` in `patternIsInList` makes the peer-count check vacuous. -/
theorem same_ignores_peer_count :
    Same c5Reference c5Target = true ∧
    (c5Reference.arena.getD 0 default).Send = [(2, 5)] ∧
    lookupVal (c5Target.arena.getD 0 default).Send 2 = none := by
  decide

/-! Section: the cross-group aggregator (claims C6, C9)

The Go maps `stats map[int]counts.SendRecvStats` and
`allPatterns map[int]patterns.Data` are modelled as association lists whose
order stands for Go's (unspecified) map iteration order; keyed access
`m[r]` is `List.lookup` with the zero value as default, exactly Go's map
read.  File output is modelled as the returned report string; `.ok none`
models the Go `return nil` exits that write no consolidated file, and
file-system failures are outside the model. -/

/-- Modelled from the spec: the binned size statistics (`counts.Bin` of the
missing `counts` package, §6 pass-through data); only the fields read by
`AnalyzeSubCommsResults` are modelled. -/
structure Bin where
  Size : Int
  Min : Int
  Max : Int
deriving DecidableEq, Repr

/-- Modelled from the spec: `counts.SendRecvStats` of the missing `counts`
package, restricted to the fields the aggregator reads (total call count of
the group and its bins). -/
structure SendRecvStats where
  TotalNumCalls : Nat
  Bins : List Bin
deriving DecidableEq, Repr

/-- Go map read `allPatterns[r]` (zero value when absent). -/
def lookupData (m : List (Nat × Data)) (r : Nat) : Data :=
  (List.lookup r m).getD emptyData

/-- Go map read `stats[r]` (zero value when absent). -/
def lookupStats (m : List (Nat × SendRecvStats)) (r : Nat) : SendRecvStats :=
  (List.lookup r m).getD ⟨0, []⟩

/-- Go `sort.Ints` on the collected keys of `stats` (src/unnamed/part_001,
lines 495-499). -/
def sortInts (l : List Nat) : List Nat :=
  List.insertionSort (· ≤ ·) l

/-- Function `writeDataToFile` (src/unnamed/part_002, lines 318-332), as the string it
writes: one line per send entry, then one per recv entry, in map iteration
order. -/
def writeDataToFileStr (cd : CallData) : String :=
  String.join (cd.Send.map fun kv =>
    toString kv.2 ++ " ranks sent to " ++ toString kv.1 ++ " other ranks\n") ++
  String.join (cd.Recv.map fun kv =>
    toString kv.2 ++ " ranks recv\x27d from " ++ toString kv.1 ++ " other ranks\n")

/-- Function `WriteSubcommNtoNPatterns` (src/unnamed/part_002, lines 357-396), as the
string it writes.  `ranks.headD 0` stands for Go's `ranks[0]`. -/
def WriteSubcommNtoNPatterns (ranks : List Nat) (st : Nat → SendRecvStats)
    (pat : Nat → Data) : String :=
  "## N to n patterns\n\n" ++ "\n### Pattern(s) description\n\n" ++
  String.join ((pat (ranks.headD 0)).NToN.map fun i =>
    writeDataToFileStr ((pat (ranks.headD 0)).arena.getD i default)) ++
  "\n\n### Sub-communicator(s) information\n\n" ++
  String.join (ranks.map fun rk =>
    "-> Subcommunicator led by rank " ++ toString rk ++ ":\n" ++
    String.join ((pat rk).NToN.enum.map fun ne =>
      "\tpattern #" ++ toString ne.1 ++ ": " ++
      toString ((pat rk).arena.getD ne.2 default).Count ++ "/" ++
      toString (st rk).TotalNumCalls ++ " alltoallv calls\n"))

/-- Function `WriteSubcomm1toNPatterns` (src/unnamed/part_002, lines 398-437). -/
def WriteSubcomm1toNPatterns (ranks : List Nat) (st : Nat → SendRecvStats)
    (pat : Nat → Data) : String :=
  "## 1 to n patterns\n\n" ++ "\n### Pattern(s) description\n\n" ++
  String.join ((pat (ranks.headD 0)).OneToN.map fun i =>
    writeDataToFileStr ((pat (ranks.headD 0)).arena.getD i default)) ++
  "\n\n### Sub-communicator(s) information\n\n" ++
  String.join (ranks.map fun rk =>
    "-> Subcommunicator led by rank " ++ toString rk ++ ":\n" ++
    String.join ((pat rk).OneToN.enum.map fun ne =>
      "\tpattern #" ++ toString ne.1 ++ ": " ++
      toString ((pat rk).arena.getD ne.2 default).Count ++ "/" ++
      toString (st rk).TotalNumCalls ++ " alltoallv calls\n"))

/-- Function `WriteSubcommNto1Patterns` (src/unnamed/part_002, lines 439-478). -/
def WriteSubcommNto1Patterns (ranks : List Nat) (st : Nat → SendRecvStats)
    (pat : Nat → Data) : String :=
  "## N to 1 patterns\n\n" ++ "\n### Pattern(s) description\n\n" ++
  String.join ((pat (ranks.headD 0)).NToOne.map fun i =>
    writeDataToFileStr ((pat (ranks.headD 0)).arena.getD i default)) ++
  "\n\n### Sub-communicator(s) information\n\n" ++
  String.join (ranks.map fun rk =>
    "-> Subcommunicator led by rank " ++ toString rk ++ ":\n" ++
    String.join ((pat rk).NToOne.enum.map fun ne =>
      "\tpattern #" ++ toString ne.1 ++ ": " ++
      toString ((pat rk).arena.getD ne.2 default).Count ++ "/" ++
      toString (st rk).TotalNumCalls ++ " alltoallv calls\n"))

/-- The heterogeneity scan of `AnalyzeSubCommsResults` (src/unnamed/part_001,
lines 446-479): the first iterated group is the reference; every later group
must match its four view lengths and pass `Same`, else the function returns
`nil` without writing. -/
def subCommsCheck (groups : List (Nat × Data)) : Bool :=
  match groups with
  | [] => true
  | (_, ref) :: rest =>
      rest.all fun g =>
        (g.2.AllPatterns.length == ref.AllPatterns.length) &&
        (g.2.NToOne.length == ref.NToOne.length) &&
        (g.2.NToN.length == ref.NToN.length) &&
        (g.2.OneToN.length == ref.OneToN.length) &&
        Same ref g.2

/-- The consolidated report of `AnalyzeSubCommsResults` (src/unnamed/
part_001, lines 490-560), as the full file content: header, then the three
topology sections in fixed order (N-to-N, 1-to-N, N-to-1) each skipped when
the first sorted rank's view is empty, then the no-data tally per rank with
a non-empty `Empty` list, then the per-rank binned size statistics. -/
def renderReport (ranks : List Nat) (st : Nat → SendRecvStats)
    (pat : Nat → Data) : String :=
  "Alltoallv on sub-communicators detected.\n\n# Patterns summary\n\n" ++
  (if 0 < (pat (ranks.headD 0)).NToN.length then
    WriteSubcommNtoNPatterns ranks st pat
  else "") ++
  (if 0 < (pat (ranks.headD 0)).OneToN.length then
    WriteSubcomm1toNPatterns ranks st pat
  else "") ++
  (if 0 < (pat (ranks.headD 0)).NToOne.length then
    WriteSubcommNto1Patterns ranks st pat
  else "") ++
  "\n## All 0 counts pattern; no data exchanged\n\n" ++
  String.join (ranks.map fun rk =>
    if 0 < (pat rk).Empty.length then
      "-> Sub-communicator led by rank " ++ toString rk ++ ": " ++
      toString (pat rk).Empty.length ++ "/" ++
      toString (st rk).TotalNumCalls ++ " alltoallv calls\n"
    else "") ++
  "\n# Counts analysis\n\n" ++
  String.join (ranks.map fun rk =>
    "-> Sub-communicator led by rank " ++ toString rk ++ ":\n" ++
    String.join ((st rk).Bins.map fun b =>
      if b.Max != -1 then
        "\t" ++ toString b.Size ++ " of the messages are of size between " ++
        toString b.Min ++ " and " ++ toString (b.Max - 1) ++ " bytes\n"
      else
        "\t" ++ toString b.Size ++ " of messages are larger or equal of " ++
        toString b.Min ++ " bytes\n"))

/-- Function `AnalyzeSubCommsResults` (src/unnamed/part_001, lines 445-563): run the
heterogeneity scan; on mismatch return `nil` error and write nothing
(`.ok none`), otherwise write the consolidated report. -/
def AnalyzeSubCommsResults (groups : List (Nat × Data))
    (stats : List (Nat × SendRecvStats)) : Except String (Option String) :=
  if subCommsCheck groups then
    .ok (some (renderReport (sortInts (stats.map Prod.fst))
      (lookupStats stats) (lookupData groups)))
  else .ok none

lemma subCommsCheck_cons {r0 : Nat} {ref : Data} {rest : List (Nat × Data)}
    (h : subCommsCheck ((r0, ref) :: rest) = true) :
    ∀ g ∈ rest,
      g.2.AllPatterns.length = ref.AllPatterns.length ∧
      g.2.NToOne.length = ref.NToOne.length ∧
      g.2.NToN.length = ref.NToN.length ∧
      g.2.OneToN.length = ref.OneToN.length ∧
      Same ref g.2 = true := by
  intro g hg
  have hall : rest.all (fun g =>
      (g.2.AllPatterns.length == ref.AllPatterns.length) &&
      (g.2.NToOne.length == ref.NToOne.length) &&
      (g.2.NToN.length == ref.NToN.length) &&
      (g.2.OneToN.length == ref.OneToN.length) &&
      Same ref g.2) = true := h
  have hgl := List.all_eq_true.mp hall g hg
  simp only [Bool.and_eq_true, beq_iff_eq] at hgl
  exact ⟨hgl.1.1.1.1, hgl.1.1.1.2, hgl.1.1.2, hgl.1.2, hgl.2⟩

lemma subCommsCheck_lengths {groups : List (Nat × Data)}
    (h : subCommsCheck groups = true) :
    ∀ g1 ∈ groups, ∀ g2 ∈ groups,
      g1.2.AllPatterns.length = g2.2.AllPatterns.length ∧
      g1.2.NToOne.length = g2.2.NToOne.length ∧
      g1.2.NToN.length = g2.2.NToN.length ∧
      g1.2.OneToN.length = g2.2.OneToN.length := by
  intro g1 hg1 g2 hg2
  cases groups with
  | nil => cases hg1
  | cons g0 rest =>
      obtain ⟨r0, ref⟩ := g0
      have hfacts := subCommsCheck_cons h
      have hone : ∀ g ∈ (r0, ref) :: rest,
          g.2.AllPatterns.length = ref.AllPatterns.length ∧
          g.2.NToOne.length = ref.NToOne.length ∧
          g.2.NToN.length = ref.NToN.length ∧
          g.2.OneToN.length = ref.OneToN.length := by
        intro g hgmem
        rcases List.mem_cons.mp hgmem with hEq | hgmem
        · rw [hEq]
          exact ⟨rfl, rfl, rfl, rfl⟩
        · exact ⟨(hfacts g hgmem).1, (hfacts g hgmem).2.1, (hfacts g hgmem).2.2.1,
            (hfacts g hgmem).2.2.2.1⟩
      obtain ⟨e1, e2, e3, e4⟩ := hone g1 hg1
      obtain ⟨f1, f2, f3, f4⟩ := hone g2 hg2
      exact ⟨e1.trans f1.symm, e2.trans f2.symm, e3.trans f3.symm, e4.trans f4.symm⟩

/-- Claim C6: When two groups of the aggregator's input disagree on the number
of `AllPatterns` (or `NToOne`, `NToN`, `OneToN`) entries, or some group fails
the `Same` structural check against the reference (the first iterated group),
`AnalyzeSubCommsResults` returns a `nil` error and writes no consolidated
report (`.ok none`): heterogeneity is never surfaced as an error. -/
theorem analyzeSubComms_heterogeneity_silent (groups : List (Nat × Data))
    (stats : List (Nat × SendRecvStats))
    (h : (∃ g1 ∈ groups, ∃ g2 ∈ groups,
            g1.2.AllPatterns.length ≠ g2.2.AllPatterns.length ∨
            g1.2.NToOne.length ≠ g2.2.NToOne.length ∨
            g1.2.NToN.length ≠ g2.2.NToN.length ∨
            g1.2.OneToN.length ≠ g2.2.OneToN.length) ∨
         (∃ r0 ref rest, groups = (r0, ref) :: rest ∧
            ∃ g ∈ rest, Same ref g.2 = false)) :
    AnalyzeSubCommsResults groups stats = .ok none := by
  have hfalse : subCommsCheck groups = false := by
    cases hchk : subCommsCheck groups with
    | false => rfl
    | true =>
        exfalso
        rcases h with ⟨g1, hg1, g2, hg2, hdiff⟩ | ⟨r0, ref, rest, hEq, g, hgmem, hSame⟩
        · obtain ⟨e1, e2, e3, e4⟩ := subCommsCheck_lengths hchk g1 hg1 g2 hg2
          rcases hdiff with hd | hd | hd | hd
          · exact hd e1
          · exact hd e2
          · exact hd e3
          · exact hd e4
        · rw [hEq] at hchk
          have := (subCommsCheck_cons hchk g hgmem).2.2.2.2
          rw [hSame] at this
          exact Bool.false_ne_true this
  rw [AnalyzeSubCommsResults, hfalse]
  simp

/-- Witness for C6: two groups with 0 and 1 buckets respectively yield
`.ok none` (`nil` error, no file). -/
theorem analyzeSubComms_heterogeneity_silent_witness :
    AnalyzeSubCommsResults
      [(0, emptyData), (1, emptyData.addPattern 0 [(4, 4)] [(4, 4)])] [] = .ok none :=
  analyzeSubComms_heterogeneity_silent _ _
    (Or.inl ⟨(0, emptyData), by decide,
      (1, emptyData.addPattern 0 [(4, 4)] [(4, 4)]), by decide,
      Or.inl (by decide)⟩)

instance exceptDecEq {ε α : Type} [DecidableEq ε] [DecidableEq α] :
    DecidableEq (Except ε α) := fun a b =>
  match a, b with
  | .ok x, .ok y =>
      if h : x = y then isTrue (by rw [h])
      else isFalse fun hEq => h (Except.ok.inj hEq)
  | .error x, .error y =>
      if h : x = y then isTrue (by rw [h])
      else isFalse fun hEq => h (Except.error.inj hEq)
  | .ok _, .error _ => isFalse fun hEq => Except.noConfusion hEq
  | .error _, .ok _ => isFalse fun hEq => Except.noConfusion hEq

/-! Section: Determinism of the report writer (claim C9) -/

lemma lookup_eq_of_perm {β : Type} (a : Nat) :
    ∀ {l1 l2 : List (Nat × β)}, l1.Perm l2 → (l1.map Prod.fst).Nodup →
      List.lookup a l1 = List.lookup a l2 := by
  intro l1 l2 hp
  induction hp with
  | nil => intro _; rfl
  | cons x t ih =>
      intro hnd
      simp only [List.map_cons, List.nodup_cons] at hnd
      simp only [List.lookup]
      cases hax : a == x.1 with
      | true => rfl
      | false => exact ih hnd.2
  | swap x y l =>
      intro hnd
      simp only [List.map_cons, List.nodup_cons, List.mem_cons] at hnd
      have hxy : y.1 ≠ x.1 := fun hEq => hnd.1 (Or.inl hEq)
      simp only [List.lookup]
      cases hax : a == x.1 with
      | true =>
          cases hay : a == y.1 with
          | true =>
              exfalso
              exact hxy ((eq_of_beq hay).symm.trans (eq_of_beq hax))
          | false => rfl
      | false =>
          cases hay : a == y.1 with
          | true => rfl
          | false => rfl
  | trans h1 h2 ih1 ih2 =>
      intro hnd
      exact (ih1 hnd).trans (ih2 (((h1.map Prod.fst).nodup_iff).mp hnd))

lemma sortInts_perm_eq {l1 l2 : List Nat} (hp : l1.Perm l2) :
    sortInts l1 = sortInts l2 :=
  List.eq_of_perm_of_sorted
    ((List.perm_insertionSort _ l1).trans (hp.trans (List.perm_insertionSort _ l2).symm))
    (List.sorted_insertionSort _ l1) (List.sorted_insertionSort _ l2)

/-- The collection seen by a run whose map iteration order yields the send
entries `(1,1), (2,2)`. -/
def c9DataA : Data := emptyData.addPattern 0 [(1, 1), (2, 2)] []

/-- The same Go collection seen by a run whose map iteration order yields the
send entries `(2,2), (1,1)`. -/
def c9DataB : Data := emptyData.addPattern 0 [(2, 2), (1, 1)] []

/-- Claim C9, counterexample: The two runs read the identical `GroupedResult`
(the two send signatures are `reflect.DeepEqual`-equal Go maps, only their
iteration order differs), both produce a consolidated report, and the two
reports are not byte-identical: the rendering is not deterministic over Go's
map iteration order. -/
theorem render_not_deterministic_counterexample :
    CompareCallPatterns [(1, 1), (2, 2)] [(2, 2), (1, 1)] = true ∧
    AnalyzeSubCommsResults [(0, c9DataA)] [(0, ⟨1, []⟩)] ≠ .ok none ∧
    AnalyzeSubCommsResults [(0, c9DataB)] [(0, ⟨1, []⟩)] ≠ .ok none ∧
    AnalyzeSubCommsResults [(0, c9DataA)] [(0, ⟨1, []⟩)] ≠
      AnalyzeSubCommsResults [(0, c9DataB)] [(0, ⟨1, []⟩)] := by
  decide

/-- Claim C9, amended: With each bucket's signature-map entry order fixed, the
report writer is deterministic; in particular the iteration order of the
`stats` and `allPatterns` maps themselves never affects the bytes (the rank
list is sorted first and all access is keyed): permuting both association
lists yields a byte-identical report. -/
theorem renderReport_group_order_invariant (groups1 groups2 : List (Nat × Data))
    (stats1 stats2 : List (Nat × SendRecvStats))
    (hg : groups1.Perm groups2) (hgnd : (groups1.map Prod.fst).Nodup)
    (hs : stats1.Perm stats2) (hsnd : (stats1.map Prod.fst).Nodup) :
    renderReport (sortInts (stats1.map Prod.fst)) (lookupStats stats1) (lookupData groups1)
      = renderReport (sortInts (stats2.map Prod.fst)) (lookupStats stats2)
          (lookupData groups2) := by
  have hranks : sortInts (stats1.map Prod.fst) = sortInts (stats2.map Prod.fst) :=
    sortInts_perm_eq (hs.map Prod.fst)
  have hld : lookupData groups1 = lookupData groups2 := by
    funext r
    rw [lookupData, lookupData, lookup_eq_of_perm r hg hgnd]
  have hls : lookupStats stats1 = lookupStats stats2 := by
    funext r
    rw [lookupStats, lookupStats, lookup_eq_of_perm r hs hsnd]
  rw [hranks, hld, hls]

/-- Witness for C9's amended claim: reversing the iteration order of both
two-entry maps leaves the report bytes unchanged. -/
theorem renderReport_group_order_invariant_witness :
    renderReport (sortInts ([(0, (⟨1, []⟩ : SendRecvStats)), (1, ⟨2, []⟩)].map Prod.fst))
        (lookupStats [(0, ⟨1, []⟩), (1, ⟨2, []⟩)])
        (lookupData [(0, c9DataA), (1, emptyData)])
      = renderReport (sortInts ([(1, (⟨2, []⟩ : SendRecvStats)), (0, ⟨1, []⟩)].map Prod.fst))
          (lookupStats [(1, ⟨2, []⟩), (0, ⟨1, []⟩)])
          (lookupData [(1, emptyData), (0, c9DataA)]) :=
  renderReport_group_order_invariant
    [(0, c9DataA), (1, emptyData)] [(1, emptyData), (0, c9DataA)]
    [(0, ⟨1, []⟩), (1, ⟨2, []⟩)] [(1, ⟨2, []⟩), (0, ⟨1, []⟩)]
    (by decide) (by decide) (by decide) (by decide)

/-! Section: The patterns file as a persisted index (claim C7)

A file is modelled as the list of its lines, each without its trailing
newline (the empty string models a line holding only `"\n"`); every line the
engine writes ends in a newline, and `bufio.Reader.ReadString('\n')` is
taking the head of the remaining lines, with `io.EOF` when none remain. -/

/-- Maximal runs of consecutive integers of a list, as `(first, last)`
pairs. -/
def compressRuns : List Nat → List (Nat × Nat)
  | [] => []
  | x :: rest =>
      match compressRuns rest with
      | [] => [(x, x)]
      | (a, b) :: rs => if x + 1 = a then (x, b) :: rs else (x, x) :: (a, b) :: rs

/-- One run rendered: a singleton as `"a"`, a longer run as `"a-b"`. -/
def runToStr (ab : Nat × Nat) : String :=
  if ab.1 = ab.2 then toString ab.1
  else toString ab.1 ++ "-" ++ toString ab.2

/-- Modelled from the spec: `notation.CompressIntArray` of the missing
`notation` package (§4.5, §8) — contiguous runs rendered as `a-b`,
singletons as `a`, comma-joined (`[0,1,2,5,7,8,9]` gives `0-2,5,7-9`). -/
def CompressIntArray (l : List Nat) : String :=
  String.intercalate "," ((compressRuns l).map runToStr)

/-- Splitting a character list at every occurrence of `sep` (both separators
of the compressed format are single characters). -/
def splitOnChar (sep : Char) : List Char → List (List Char)
  | [] => [[]]
  | c :: rest =>
      match splitOnChar sep rest with
      | [] => [[c]]
      | g :: gs => if c = sep then [] :: g :: gs else (c :: g) :: gs

/-- Go `strings.Split` at a one-character separator. -/
def splitStr (s : String) (sep : Char) : List String :=
  (splitOnChar sep s.data).map String.mk

/-- Decimal parsing of a character list (accumulator form). -/
def parseNatAux : List Char → Nat → Option Nat
  | [], acc => some acc
  | c :: rest, acc =>
      if c.isDigit then parseNatAux rest (acc * 10 + (c.toNat - 48))
      else none

/-- Go `strconv.Atoi` restricted to unsigned decimals (call numbers). -/
def parseNatStr (s : String) : Option Nat :=
  match s.data with
  | [] => none
  | l => parseNatAux l 0

/-- One compressed token decoded: `"a"` or `"a-b"`. -/
def expandToken (t : String) : Except String (List Nat) :=
  match splitStr t (Char.ofNat 45) with
  | [a] =>
      match parseNatStr a with
      | some n => .ok [n]
      | none => .error ("unable to parse " ++ t)
  | [a, b] =>
      match parseNatStr a, parseNatStr b with
      | some x, some y => .ok ((List.range (y + 1 - x)).map (· + x))
      | _, _ => .error ("unable to parse " ++ t)
  | _ => .error ("unable to parse " ++ t)

/-- Modelled from the spec: `notation.ConvertCompressedCallListToIntSlice` of
the missing `notation` package (§4.5, §8) — decodes the comma-joined
run-length encoding back into the ordered call list. -/
def ConvertCompressedCallListToIntSlice (s : String) : Except String (List Nat) :=
  (splitStr s (Char.ofNat 44)).foldlM (fun acc t => (expandToken t).map (acc ++ ·)) []

example : CompressIntArray [0, 1, 2, 5, 7, 8, 9] = "0-2,5,7-9" := by decide

example : ConvertCompressedCallListToIntSlice "0-2,5,7-9" = .ok [0, 1, 2, 5, 7, 8, 9] := by
  decide

/-- Go `strings.HasPrefix`, over the character lists. -/
def strStartsWith (s p : String) : Bool :=
  p.data.isPrefixOf s.data

/-- Go `strings.TrimLeft` (a cutset trim, not a prefix trim): drop leading
characters that occur in `cutset`. -/
def trimLeftCutset (s : String) (cutset : String) : String :=
  ⟨s.data.dropWhile (fun c => cutset.data.contains c)⟩

/-- A read failure: `io.EOF` or a formatted error. -/
inductive ReadErr where
  | eof
  | msg (s : String)
deriving DecidableEq, Repr

/-- Function `GetPatternHeader` (src/unnamed/part_002, lines 61-93): the next line
must start with `"## Pattern #"`, and the line immediately after it must
start with `"Alltoallv calls: "`; the call list is then decoded from the
second line after a cutset `TrimLeft` (the trailing-newline trim is implicit
in the line model). -/
def GetPatternHeader (lines : List String) :
    Except ReadErr (List Nat × String × List String) :=
  match lines with
  | [] => .error .eof
  | l1 :: rest1 =>
      if !(strStartsWith l1 "## Pattern #") then
        .error (.msg ("[ERROR] not a header (line: " ++ l1 ++ ")"))
      else
        match rest1 with
        | [] => .error .eof
        | l2 :: rest2 =>
            if !(strStartsWith l2 "Alltoallv calls: ") then
              .error (.msg ("[ERROR] not a header (line: " ++ l2 ++ ")"))
            else
              match ConvertCompressedCallListToIntSlice
                  (trimLeftCutset l2 "Alltoallv calls: ") with
              | .error e => .error (.msg e)
              | .ok ids => .ok (ids, trimLeftCutset l2 "Alltoallv calls: ", rest2)

/-- Function `getPatterns` (src/unnamed/part_002, lines 190-216): accumulate lines
until a blank line or end of file; a line starting with `"Alltoallv calls: "`
is a parser-compromise error. -/
def getPatterns : List String → Except ReadErr (String × List String)
  | [] => .ok ("", [])
  | l :: rest =>
      if l = "" then .ok ("", rest)
      else if strStartsWith l "Alltoallv calls: " then
        .error (.msg ("header and patterns parser are compromised: " ++ l))
      else
        match getPatterns rest with
        | .ok (p, rem) => .ok (l ++ "\n" ++ p, rem)
        | .error e => .error e

/-- The header-scanning loop of `GetCall` (src/unnamed/part_002, lines
237-268), with explicit fuel (the Go loop consumes at least one line per
iteration, so `lines.length + 1` fuel is always enough).  On a `getPatterns`
failure the Go code returns `("", nil)`: modelled as `.ok ""`. -/
def getCallLoop : Nat → List String → Nat → Except String String
  | 0, _, callNum => .error ("unable to find data for call " ++ toString callNum)
  | fuel + 1, lines, callNum =>
      match GetPatternHeader lines with
      | .error .eof => .error ("unable to find data for call " ++ toString callNum)
      | .error (.msg m) => .error ("unable to read: " ++ m)
      | .ok (ids, _, rem) =>
          if ids.contains callNum then
            match getPatterns rem with
            | .ok (p, _) => .ok p
            | .error _ => .ok ""
          else
            match getPatterns rem with
            | .ok (_, rem2) => getCallLoop fuel rem2 callNum
            | .error _ => .ok ""

/-- Function `GetCall` (src/unnamed/part_002, lines 218-269): require the `"# Patterns"`
first line, then scan header blocks for the one whose decoded call list
contains `callNum` and return its pattern text. -/
def GetCall (lines : List String) (callNum : Nat) : Except String String :=
  match lines with
  | [] => .error "EOF"
  | l :: rest =>
      if l ≠ "# Patterns" then .error ("wrong file format: " ++ l)
      else getCallLoop (rest.length + 1) rest callNum

/-- Function `writeDataToFile` (src/unnamed/part_002, lines 318-332), as lines. -/
def writeDataToFileLines (cd : CallData) : List String :=
  cd.Send.map (fun kv =>
    toString kv.2 ++ " ranks sent to " ++ toString kv.1 ++ " other ranks") ++
  cd.Recv.map (fun kv =>
    toString kv.2 ++ " ranks recv\x27d from " ++ toString kv.1 ++ " other ranks")

/-- Function `WriteToFile` (src/unnamed/part_002, lines 334-355), as the lines it
writes: note the format string `"## Pattern #%d (%d/%d alltoallv calls)\n\n"`
emits a blank line between the header line and the `"Alltoallv calls: "`
line. -/
def WriteToFile (num : Nat) (totalNumCalls : Nat) (cd : CallData) : List String :=
  ["## Pattern #" ++ toString num ++ " (" ++ toString cd.Count ++ "/" ++
      toString totalNumCalls ++ " alltoallv calls)", ""] ++
  ["Alltoallv calls: " ++ CompressIntArray cd.Calls] ++
  writeDataToFileLines cd ++ [""]

/-- The per-rank patterns file written by `SaveStats` (src/unnamed/part_001,
lines 671-682): the `"# Patterns"` first line, then one `WriteToFile` block
per bucket of `AllPatterns` in order. -/
def patternsFileLines (d : Data) (numCalls : Nat) : List String :=
  "# Patterns" :: ((allPatternsList d).enum.map
    (fun ncd => WriteToFile ncd.1 numCalls ncd.2)).flatten

/-- The collection written for C7: one bucket holding call 0. -/
def c7Data : Data := emptyData.addPattern 0 [(4, 4)] [(4, 4)]

/-- Claim C7: The persisted index does not round-trip: call 0 is recorded in
the written collection, yet `GetCall` on the very file produced by
`WriteToFile` returns an error for it, because `GetPatternHeader` requires
the `"Alltoallv calls: "` line immediately after the `"## Pattern #"` line
while `WriteToFile` emits a blank line in between — every lookup fails. -/
theorem getCall_roundtrip_failure :
    (c7Data.arena.getD 0 default).Calls = [0] ∧
    patternsFileLines c7Data 1 =
      ["# Patterns", "## Pattern #0 (1/1 alltoallv calls)", "",
       "Alltoallv calls: 0", "4 ranks sent to 4 other ranks",
       "4 ranks recv\x27d from 4 other ranks", ""] ∧
    GetCall (patternsFileLines c7Data 1) 0 =
      .error "unable to read: [ERROR] not a header (line: )" := by
  decide

end CollectiveProfiler
